import Mathlib

/-!
Shallow embedding of the configuration-validation and upstream-address-resolution
core of the layer4-proxy repository (src/config.rs, src/servers/upstream_address.rs).

Modelling conventions:
* Time is modelled in whole seconds as `Nat`; `Instant::now()` becomes an explicit
  `now : Nat` argument and `resolved.elapsed()` becomes `now - resolved_time`
  (elapsed time is non-negative, as for Rust `Instant`).
* `tokio::net::lookup_host` is an external effect; each `resolve` call receives the
  answer the OS would give at that moment, as `Except IOError (List SocketAddr)`.
  The model additionally reports whether the lookup was actually consumed
  (`Bool` = "a DNS query was performed"), so lookup counts are observable.
* The `Mutex` around the cache serializes whole `resolve` operations; N concurrent
  callers therefore execute as some sequence of N sequential calls on the shared
  state, modelled by `resolveSeq`.
* Rust `HashMap`s are modelled as association lists; their iteration order is
  unspecified in Rust, so the list order stands for one possible iteration order.
* The `url` crate is external to the repository; a parsed URL is modelled
  abstractly by its scheme, optional host and optional effective port, and the
  parser itself is a parameter `parseUrl : String → Option Url`.
-/

/-- A resolved socket address; only the IPv4/IPv6 distinction matters to the core. -/
inductive SocketAddr : Type
  | v4 (ip : Nat) (port : Nat) : SocketAddr
  | v6 (ip : Nat) (port : Nat) : SocketAddr
deriving DecidableEq, Repr

/-- `SocketAddr::is_ipv4`. -/
def SocketAddr.is_ipv4 : SocketAddr → Bool
  | .v4 _ _ => true
  | .v6 _ _ => false

/-- `SocketAddr::is_ipv6`. -/
def SocketAddr.is_ipv6 : SocketAddr → Bool
  | .v4 _ _ => false
  | .v6 _ _ => true

/-- `std::io::Error`, abstracted to its message. -/
structure IOError : Type where
  msg : String
deriving DecidableEq, Repr

/-- `ResolutionMode` from src/servers/upstream_address.rs. -/
inductive ResolutionMode : Type
  | Ipv4AndIpv6
  | Ipv4
  | Ipv6
deriving DecidableEq, Repr

/-- `impl From<&str> for ResolutionMode`. The `_ => panic!(..)` arm is modelled
as `none`: `some` is a normal return, `none` is the fatal assertion. -/
def ResolutionMode.fromStr : String → Option ResolutionMode
  | "tcp4" => some ResolutionMode.Ipv4
  | "tcp6" => some ResolutionMode.Ipv6
  | "tcp" => some ResolutionMode.Ipv4AndIpv6
  | _ => none

/-- `UpstreamAddress` from src/servers/upstream_address.rs: the per-upstream
address cache. `resolved_time` is the instant of the last resolution (seconds),
`ttl` a duration in seconds. -/
structure UpstreamAddress : Type where
  address : String
  resolved_addresses : List SocketAddr
  resolved_time : Option Nat
  ttl : Option Nat
deriving DecidableEq, Repr

namespace UpstreamAddress

/-- `UpstreamAddress::new`: fresh cache for an address string (Default fills the rest). -/
def new (address : String) : UpstreamAddress :=
  { address := address, resolved_addresses := [], resolved_time := none, ttl := none }

/-- `UpstreamAddress::is_valid`: a resolution timestamp and a ttl exist and the
elapsed time since the timestamp is strictly below the ttl. -/
def is_valid (a : UpstreamAddress) (now : Nat) : Bool :=
  match a.resolved_time, a.ttl with
  | some resolved, some ttl => decide (now - resolved < ttl)
  | _, _ => false

/-- `UpstreamAddress::is_resolved`: the cached address list is non-empty. -/
def is_resolved (a : UpstreamAddress) : Bool :=
  a.resolved_addresses.length > 0

/-- The protocol-mode filter applied to a successful lookup result
(the `match mode` block inside `resolve`; the wildcard arm keeps everything). -/
def filterByMode (mode : ResolutionMode) (resolved_addresses : List SocketAddr) :
    List SocketAddr :=
  match mode with
  | ResolutionMode.Ipv4 => resolved_addresses.filter (fun a => a.is_ipv4)
  | ResolutionMode.Ipv6 => resolved_addresses.filter (fun a => a.is_ipv6)
  | _ => resolved_addresses

/-- `UpstreamAddress::resolve`. Returns the call result, the cache state after
the call, and whether a DNS lookup was performed. `lookup_result` is the answer
the OS would give if the lookup is performed at instant `now`. -/
def resolve (a : UpstreamAddress) (mode : ResolutionMode) (now : Nat)
    (lookup_result : Except IOError (List SocketAddr)) :
    Except IOError (List SocketAddr) × UpstreamAddress × Bool :=
  if a.is_resolved && a.is_valid now then
    (Except.ok a.resolved_addresses, a, false)
  else
    match lookup_result with
    | Except.error e =>
        -- on failure: timestamp now, ttl 3 s, address list left as-is, error propagated
        (Except.error e, { a with resolved_time := some now, ttl := some 3 }, true)
    | Except.ok resolved_addresses =>
        let addresses := filterByMode mode resolved_addresses
        (Except.ok addresses,
          { a with resolved_addresses := addresses,
                   resolved_time := some now,
                   ttl := some 60 },
          true)

/-- A sequence of mutex-serialized `resolve` calls on one shared cache: each call
carries its instant and the DNS answer the OS would give then. Returns the list
of per-call results, the final cache state, and the number of DNS lookups
actually performed. -/
def resolveSeq (a : UpstreamAddress) (mode : ResolutionMode) :
    List (Nat × Except IOError (List SocketAddr)) →
    List (Except IOError (List SocketAddr)) × UpstreamAddress × Nat
  | [] => ([], a, 0)
  | (now, lr) :: rest =>
      let step := a.resolve mode now lr
      let tail := resolveSeq step.2.1 mode rest
      (step.1 :: tail.1, tail.2.1, (if step.2.2 then 1 else 0) + tail.2.2)

end UpstreamAddress

/-- `ServerConfig` from src/config.rs: one listener group. The `sni` map is an
association list standing for the Rust `HashMap` in iteration order. -/
structure ServerConfig : Type where
  listen : List String
  protocol : Option String
  tls : Option Bool
  sni : Option (List (String × String))
  default : Option String
deriving DecidableEq, Repr

/-- `ProxyToUpstream` from src/config.rs (the `addresses` cache holds the model
state of the `Mutex<UpstreamAddress>`). -/
structure ProxyToUpstream : Type where
  name : String
  addr : String
  protocol : String
  addresses : UpstreamAddress
deriving DecidableEq, Repr

/-- `Upstream` from src/config.rs. -/
inductive Upstream : Type
  | Ban
  | Echo
  | Proxy (p : ProxyToUpstream)
deriving DecidableEq, Repr

/-- `BaseConfig`: the document as parsed, upstreams still raw URL strings. -/
structure BaseConfig : Type where
  version : Int
  log : Option String
  servers : List (String × ServerConfig)
  upstream : List (String × String)
deriving DecidableEq, Repr

/-- `ParsedConfig`: upstreams classified into `Upstream` values. -/
structure ParsedConfig : Type where
  version : Int
  log : Option String
  servers : List (String × ServerConfig)
  upstream : List (String × Upstream)
deriving DecidableEq, Repr

/-- `ConfigError` from src/config.rs; `Io` stands for the source's I/O-error
variant. Only the `Custom` variant arises in the modelled fragment (file
reading and YAML parsing are external effects). -/
inductive ConfigError : Type
  | Io (e : IOError)
  | Yaml (msg : String)
  | Custom (msg : String)
deriving DecidableEq, Repr

/-- A parsed URL as the `url` crate exposes it to src/config.rs: scheme,
optional host string, and `port_or_known_default`. The parser itself is
external; `load` takes it as a `String → Option Url` parameter. -/
structure Url : Type where
  scheme : String
  host_str : Option String
  port_or_known_default : Option Nat
deriving DecidableEq, Repr

/-- `HashMap::insert`: replace the value under an existing key, else add the
entry (modelled on association lists; new keys go to the end). -/
def hmInsert {α : Type} (m : List (String × α)) (k : String) (v : α) :
    List (String × α) :=
  if m.any (fun p => p.1 = k) then
    m.map (fun p => if p.1 = k then (k, v) else p)
  else
    m ++ [(k, v)]

/-- `ProxyToUpstream::resolve_addresses`: lock the cache and resolve with the
mode derived from the stored protocol string. `none` is the panic of
`ResolutionMode::from` on an unrecognized protocol. -/
def ProxyToUpstream.resolve_addresses (p : ProxyToUpstream) (now : Nat)
    (lookup_result : Except IOError (List SocketAddr)) :
    Option (Except IOError (List SocketAddr) × ProxyToUpstream × Bool) :=
  (ResolutionMode.fromStr p.protocol).map (fun mode =>
    let r := p.addresses.resolve mode now lookup_result
    (r.1, { p with addresses := r.2.1 }, r.2.2))

/-- The per-upstream body of the loop in `load_config` (src/config.rs lines
112-166): URL parse, host, port and scheme checks in source order, then the
constructed entry is inserted into the accumulating upstream map. -/
def parseUpstreams (parseUrl : String → Option Url)
    (acc : List (String × Upstream)) :
    List (String × String) → Except ConfigError (List (String × Upstream))
  | [] => Except.ok acc
  | (name, upstream) :: rest =>
      match parseUrl upstream with
      | none => Except.error (ConfigError.Custom ("Invalid upstream url " ++ upstream))
      | some upstream_url =>
          match upstream_url.host_str with
          | none => Except.error (ConfigError.Custom ("Invalid upstream url " ++ upstream))
          | some upstream_host =>
              match upstream_url.port_or_known_default with
              | none => Except.error (ConfigError.Custom ("Invalid upstream url " ++ upstream))
              | some upstream_port =>
                  if upstream_url.scheme = "tcp" ∨ upstream_url.scheme = "tcp4"
                      ∨ upstream_url.scheme = "tcp6" then
                    parseUpstreams parseUrl
                      (hmInsert acc name (Upstream.Proxy
                        { name := name,
                          addr := upstream_host ++ ":" ++ toString upstream_port,
                          protocol := upstream_url.scheme,
                          addresses := UpstreamAddress.new
                            (upstream_host ++ ":" ++ toString upstream_port) }))
                      rest
                  else
                    Except.error (ConfigError.Custom ("Invalid upstream scheme " ++ upstream))

/-- The duplicate-upstream-name pass of `verify_config` (lines 188-197);
returns the collected `upstream_names` in insertion order. -/
def checkDupNames :
    List (String × Upstream) → List String → Except ConfigError (List String)
  | [], seen => Except.ok seen
  | (name, _) :: rest, seen =>
      if name ∈ seen then
        Except.error (ConfigError.Custom ("Duplicate upstream name " ++ name))
      else
        checkDupNames rest (seen ++ [name])

/-- The duplicate-listen-address pass for one server (lines 201-210), threading
the global `listen_addresses` set. -/
def checkListens :
    List String → List String → Except ConfigError (List String)
  | [], seen => Except.ok seen
  | listen :: rest, seen =>
      if listen ∈ seen then
        Except.error (ConfigError.Custom ("Duplicate listen address " ++ listen))
      else
        checkListens rest (seen ++ [listen])

/-- `HashSet::insert` on the insertion-ordered list model. -/
def insertUsed (used : List String) (v : String) : List String :=
  if v ∈ used then used else used ++ [v]

/-- The upstream names one server references: its SNI map values when TLS is on
and an SNI map is present (lines 212-216), then its default (lines 218-220). -/
def serverRefs (server : ServerConfig) : List String :=
  (if server.tls.getD false && server.sni.isSome then
    (server.sni.getD []).map Prod.snd
  else []) ++
  (match server.default with
   | some d => [d]
   | none => [])

/-- Adding one server's references to the accumulated `used_upstreams` set. -/
def collectRefs (used : List String) (server : ServerConfig) : List String :=
  (serverRefs server).foldl insertUsed used

/-- The reference-validity pass (lines 222-226): every name in the accumulated
used set must be a key of the upstream table. -/
def checkUsed (upstreamKeys : List String) :
    List String → Except ConfigError Unit
  | [] => Except.ok ()
  | key :: rest =>
      if key ∈ upstreamKeys then checkUsed upstreamKeys rest
      else Except.error (ConfigError.Custom ("Upstream " ++ key ++ " not found"))

/-- The main server loop of `verify_config` (lines 199-227). The
`listen_addresses` and `used_upstreams` sets thread through the whole loop;
they are never reset between servers. Returns the final used set. -/
def verifyServers (upstreamKeys : List String) :
    List (String × ServerConfig) → List String → List String →
    Except ConfigError (List String)
  | [], _, used => Except.ok used
  | (_, server) :: rest, listens, used =>
      match checkListens server.listen listens with
      | Except.error e => Except.error e
      | Except.ok listens2 =>
          match checkUsed upstreamKeys (collectRefs used server) with
          | Except.error e => Except.error e
          | Except.ok _ =>
              verifyServers upstreamKeys rest listens2 (collectRefs used server)

/-- The used-upstream set accumulated over all servers (what the final
unused-upstream pass checks against). -/
def globalUsedSet (servers : List (String × ServerConfig)) : List String :=
  servers.foldl (fun used s => collectRefs used s.2) []

/-- The names the final pass (lines 229-233) warns about: upstream names never
referenced by any server, the two builtins exempt. The source only logs them;
the model makes the set explicit. -/
def unusedUpstreams (config : ParsedConfig) : List String :=
  (config.upstream.map Prod.fst).filter
    (fun key => !(key ∈ globalUsedSet config.servers) && key ≠ "echo" && key ≠ "ban")

/-- `verify_config` (src/config.rs lines 182-236): on success the config is
returned unchanged. -/
def verifyConfig (config : ParsedConfig) : Except ConfigError ParsedConfig :=
  match checkDupNames config.upstream [] with
  | Except.error e => Except.error e
  | Except.ok _ =>
      match verifyServers (config.upstream.map Prod.fst) config.servers [] [] with
      | Except.error e => Except.error e
      | Except.ok _ => Except.ok config

/-- `load_config` from the point where the document has been parsed into a
`BaseConfig` (file I/O, YAML parsing and log initialization are external
effects): version gate, upstream URL classification, injection of the `ban`
and `echo` builtins, then `verify_config`. -/
def loadParsedConfig (parseUrl : String → Option Url) (base : BaseConfig) :
    Except ConfigError ParsedConfig :=
  if base.version ≠ 1 then
    Except.error (ConfigError.Custom "Unsupported config version")
  else
    match parseUpstreams parseUrl [] base.upstream with
    | Except.error e => Except.error e
    | Except.ok up =>
        verifyConfig
          { version := base.version, log := base.log,
            servers := base.servers,
            upstream := hmInsert (hmInsert up "ban" Upstream.Ban) "echo" Upstream.Echo }

namespace UpstreamAddress

theorem is_resolved_of_ne_nil {a : UpstreamAddress} (h : a.resolved_addresses ≠ []) :
    a.is_resolved = true := by
  simp [is_resolved, List.length_pos, h]

theorem is_valid_set (a : UpstreamAddress) (t d now : Nat) :
    is_valid { a with resolved_time := some t, ttl := some d } now
      = decide (now - t < d) := by
  simp [is_valid]

/-- A cache-hit call: valid and nonempty, so the cached list is returned, the
state is untouched and no lookup happens, whatever the DNS would have said. -/
theorem resolve_hit (a : UpstreamAddress) (mode : ResolutionMode) (now : Nat)
    (lr : Except IOError (List SocketAddr))
    (h : (a.is_resolved && a.is_valid now) = true) :
    a.resolve mode now lr = (Except.ok a.resolved_addresses, a, false) := by
  unfold resolve
  simp [h]

/-- A run of cache-hit calls: each call in the window returns the cached list,
the state never changes and no lookup at all is performed. -/
theorem resolveSeq_hits (a : UpstreamAddress) (mode : ResolutionMode)
    (calls : List (Nat × Except IOError (List SocketAddr)))
    (hne : a.resolved_addresses ≠ [])
    (hv : ∀ c ∈ calls, a.is_valid c.1 = true) :
    resolveSeq a mode calls
      = (calls.map (fun _ => Except.ok a.resolved_addresses), a, 0) := by
  induction calls with
  | nil => rfl
  | cons c rest ih =>
      obtain ⟨now, lr⟩ := c
      have hhit : (a.is_resolved && a.is_valid now) = true := by
        simp [is_resolved_of_ne_nil hne, hv (now, lr) (List.mem_cons_self _ _)]
      have hrest : ∀ c ∈ rest, a.is_valid c.1 = true := fun c hc =>
        hv c (List.mem_cons_of_mem _ hc)
      simp [resolveSeq, resolve_hit a mode now lr hhit, ih hrest]

/-- A cold-cache call whose lookup succeeds: the filtered list is returned and
stored with timestamp `now` and a 60 s ttl, and one lookup is performed. -/
theorem resolve_cold_ok (s : String) (mode : ResolutionMode) (now : Nat)
    (raw : List SocketAddr) :
    (new s).resolve mode now (Except.ok raw)
      = (Except.ok (filterByMode mode raw),
         { address := s, resolved_addresses := filterByMode mode raw,
           resolved_time := some now, ttl := some 60 }, true) := by
  simp [resolve, new, is_resolved]

end UpstreamAddress

open UpstreamAddress in
/-- Claim C1, counterexample: two mutex-serialized resolve calls against a cold
cache whose DNS lookup fails perform TWO underlying DNS lookups, not exactly
one — the second caller, observing the fresh-but-empty negative cache, issues
its own lookup. -/
theorem C1_counterexample_two_lookups_on_failure :
    (resolveSeq (new "example.com:80") ResolutionMode.Ipv4AndIpv6
        [(0, Except.error ⟨"dns fail"⟩), (0, Except.error ⟨"dns fail"⟩)]).2.2 = 2
    ∧ (resolveSeq (new "example.com:80") ResolutionMode.Ipv4AndIpv6
        [(0, Except.error ⟨"dns fail"⟩), (0, Except.error ⟨"dns fail"⟩)]).2.2 ≠ 1 := by
  exact ⟨rfl, by decide⟩

open UpstreamAddress in
/-- Claim C1, amended: when the first serialized caller's DNS lookup succeeds
and the protocol filter leaves at least one address, the N serialized calls on
a cold cache perform exactly one DNS lookup and every call observes the same
resulting address list, as long as the later calls fall inside the 60 s
positive-cache window. -/
theorem C1_amended_single_lookup (s : String) (mode : ResolutionMode)
    (raw : List SocketAddr) (t : Nat)
    (calls : List (Nat × Except IOError (List SocketAddr)))
    (hne : filterByMode mode raw ≠ [])
    (hwin : ∀ c ∈ calls, c.1 - t < 60) :
    resolveSeq (new s) mode ((t, Except.ok raw) :: calls)
      = (Except.ok (filterByMode mode raw)
           :: calls.map (fun _ => Except.ok (filterByMode mode raw)),
         { address := s, resolved_addresses := filterByMode mode raw,
           resolved_time := some t, ttl := some 60 }, 1) := by
  have h2 := resolveSeq_hits
    { address := s, resolved_addresses := filterByMode mode raw,
      resolved_time := some t, ttl := some 60 } mode calls hne
    (fun c hc => by simpa [is_valid] using hwin c hc)
  simp [resolveSeq, resolve_cold_ok, h2]

open UpstreamAddress in
/-- Claim C1 amended, witness: two serialized callers, the first resolving to
one IPv4 address at t = 0, the second arriving at t = 10: one lookup, both see
the same singleton list. -/
theorem C1_amended_single_lookup_witness :
    resolveSeq (new "example.com:80") ResolutionMode.Ipv4AndIpv6
        [(0, Except.ok [SocketAddr.v4 1 80]), (10, Except.error ⟨"dns fail"⟩)]
      = ([Except.ok [SocketAddr.v4 1 80], Except.ok [SocketAddr.v4 1 80]],
         { address := "example.com:80", resolved_addresses := [SocketAddr.v4 1 80],
           resolved_time := some 0, ttl := some 60 }, 1) :=
  C1_amended_single_lookup "example.com:80" ResolutionMode.Ipv4AndIpv6
    [SocketAddr.v4 1 80] 0 [(10, Except.error ⟨"dns fail"⟩)]
    (by decide) (by decide)

open UpstreamAddress in
/-- Claim C2, divergence at the failing input: on a cold cache a failing lookup
at t = 0 does record timestamp 0 and ttl 3 and propagates the error (first
conjunct), but a retry at t = 1 — inside the 3 s negative-cache window —
performs a NEW DNS lookup (second conjunct), and its outcome is whatever that
fresh lookup returns rather than the cached failure (third conjunct): the
cache-hit fast path requires a non-empty address list, so the negative cache
never short-circuits after a failure on an empty cache. -/
theorem C2_negative_cache_never_consulted :
    (new "example.com:80").resolve ResolutionMode.Ipv4AndIpv6 0
        (Except.error ⟨"dns fail"⟩)
      = (Except.error ⟨"dns fail"⟩,
         { address := "example.com:80", resolved_addresses := [],
           resolved_time := some 0, ttl := some 3 }, true)
    ∧ (({ address := "example.com:80", resolved_addresses := [],
          resolved_time := some 0, ttl := some 3 } : UpstreamAddress).resolve
          ResolutionMode.Ipv4AndIpv6 1 (Except.error ⟨"dns fail"⟩)).2.2 = true
    ∧ (({ address := "example.com:80", resolved_addresses := [],
          resolved_time := some 0, ttl := some 3 } : UpstreamAddress).resolve
          ResolutionMode.Ipv4AndIpv6 1 (Except.ok [SocketAddr.v4 1 80])).1
        = Except.ok [SocketAddr.v4 1 80] :=
  ⟨rfl, rfl, rfl⟩

open UpstreamAddress in
/-- Claim C3, counterexample: a first successful resolve whose protocol filter
leaves zero addresses (IPv4 mode, IPv6-only answer) stores an empty list, and
a second call 10 s later — well inside the 60 s ttl — performs a second DNS
lookup and returns that fresh result instead of the stored empty list. -/
theorem C3_counterexample_empty_result_not_cached :
    (resolveSeq (new "example.com:80") ResolutionMode.Ipv4
        [(0, Except.ok [SocketAddr.v6 1 80]),
         (10, Except.ok [SocketAddr.v4 2 80])]).2.2 = 2
    ∧ (resolveSeq (new "example.com:80") ResolutionMode.Ipv4
        [(0, Except.ok [SocketAddr.v6 1 80]),
         (10, Except.ok [SocketAddr.v4 2 80])]).1
      = [Except.ok [], Except.ok [SocketAddr.v4 2 80]] :=
  ⟨rfl, rfl⟩

open UpstreamAddress in
/-- Claim C3, amended: a first successful resolve stores the filtered result
with timestamp `t` and a 60 s ttl after one lookup; provided that stored list
is non-empty, any second call before the ttl elapses returns the identical
stored list, leaves the cache untouched and performs no DNS lookup. -/
theorem C3_amended_positive_cache (s : String) (mode : ResolutionMode)
    (raw : List SocketAddr) (t t2 : Nat)
    (lr : Except IOError (List SocketAddr))
    (hne : filterByMode mode raw ≠ [])
    (hwin : t2 - t < 60) :
    (new s).resolve mode t (Except.ok raw)
      = (Except.ok (filterByMode mode raw),
         { address := s, resolved_addresses := filterByMode mode raw,
           resolved_time := some t, ttl := some 60 }, true)
    ∧ ({ address := s, resolved_addresses := filterByMode mode raw,
         resolved_time := some t, ttl := some 60 } : UpstreamAddress).resolve
          mode t2 lr
      = (Except.ok (filterByMode mode raw),
         { address := s, resolved_addresses := filterByMode mode raw,
           resolved_time := some t, ttl := some 60 }, false) := by
  refine ⟨resolve_cold_ok s mode t raw, ?_⟩
  have h1 := @is_resolved_of_ne_nil
    { address := s, resolved_addresses := filterByMode mode raw,
      resolved_time := some t, ttl := some 60 } hne
  exact resolve_hit _ mode t2 lr (by simp [h1, is_valid, hwin])

open UpstreamAddress in
/-- Claim C3 amended, witness: dual-stack resolve of one IPv4 address at t = 0,
second call at t = 10 with a DNS answer that would differ: the cached list is
returned and no lookup happens. -/
theorem C3_amended_positive_cache_witness :
    filterByMode ResolutionMode.Ipv4AndIpv6 [SocketAddr.v4 1 80] ≠ [] ∧
    ({ address := "example.com:80",
       resolved_addresses := filterByMode ResolutionMode.Ipv4AndIpv6 [SocketAddr.v4 1 80],
       resolved_time := some 0, ttl := some 60 } : UpstreamAddress).resolve
        ResolutionMode.Ipv4AndIpv6 10 (Except.ok [SocketAddr.v4 2 80])
      = (Except.ok (filterByMode ResolutionMode.Ipv4AndIpv6 [SocketAddr.v4 1 80]),
         { address := "example.com:80",
           resolved_addresses := filterByMode ResolutionMode.Ipv4AndIpv6 [SocketAddr.v4 1 80],
           resolved_time := some 0, ttl := some 60 }, false) :=
  ⟨by decide,
   (C3_amended_positive_cache "example.com:80" ResolutionMode.Ipv4AndIpv6
      [SocketAddr.v4 1 80] 0 10 (Except.ok [SocketAddr.v4 2 80])
      (by decide) (by decide)).2⟩

open UpstreamAddress in
/-- Claim C4: whenever a resolve call actually performs a lookup and the lookup
succeeds, the returned list is the protocol-mode filter of the raw answer —
IPv4 mode keeps exactly the IPv4 entries, IPv6 mode exactly the IPv6 entries,
dual-stack mode the full unfiltered set — and the call succeeds even when the
filter leaves zero addresses (the result is `Except.ok` of the filtered list,
whatever that list is, never an error). -/
theorem C4_protocol_mode_filtering (a : UpstreamAddress) (now : Nat)
    (raw : List SocketAddr)
    (hmiss : (a.is_resolved && a.is_valid now) = false) :
    (∀ mode : ResolutionMode,
        (a.resolve mode now (Except.ok raw)).1 = Except.ok (filterByMode mode raw))
    ∧ filterByMode ResolutionMode.Ipv4 raw = raw.filter (fun x => x.is_ipv4)
    ∧ filterByMode ResolutionMode.Ipv6 raw = raw.filter (fun x => x.is_ipv6)
    ∧ filterByMode ResolutionMode.Ipv4AndIpv6 raw = raw := by
  refine ⟨fun mode => ?_, rfl, rfl, rfl⟩
  simp [resolve, hmiss]

open UpstreamAddress in
/-- Claim C4, witness: a cold cache, a mixed IPv4/IPv6 answer; IPv4 mode keeps
the IPv4 entry, and filtering the IPv4-only answer to IPv6 yields a successful
empty list. -/
theorem C4_protocol_mode_filtering_witness :
    ((new "example.com:80").resolve ResolutionMode.Ipv4 0
        (Except.ok [SocketAddr.v4 1 80, SocketAddr.v6 2 80])).1
      = Except.ok (filterByMode ResolutionMode.Ipv4
          [SocketAddr.v4 1 80, SocketAddr.v6 2 80])
    ∧ ((new "example.com:80").resolve ResolutionMode.Ipv6 0
        (Except.ok [SocketAddr.v4 1 80])).1
      = Except.ok (filterByMode ResolutionMode.Ipv6 [SocketAddr.v4 1 80]) :=
  ⟨(C4_protocol_mode_filtering (new "example.com:80") 0
      [SocketAddr.v4 1 80, SocketAddr.v6 2 80] (by decide)).1 ResolutionMode.Ipv4,
   (C4_protocol_mode_filtering (new "example.com:80") 0
      [SocketAddr.v4 1 80] (by decide)).1 ResolutionMode.Ipv6⟩

open UpstreamAddress in
/-- Claim C10: when the cache holds a non-empty address list from an earlier
successful resolution but its ttl has expired, a resolve call whose lookup
fails returns the error while keeping the old list in the cache (only
timestamp and ttl change, to now and 3 s); and every subsequent serialized
resolve call whose instant lies within the 3 s window returns the old stale
list as a success, without any further DNS lookup. -/
theorem C10_stale_list_served_after_failure (a : UpstreamAddress)
    (mode mode2 : ResolutionMode) (now : Nat) (e : IOError)
    (hne : a.resolved_addresses ≠ [])
    (hexp : a.is_valid now = false) :
    a.resolve mode now (Except.error e)
      = (Except.error e, { a with resolved_time := some now, ttl := some 3 }, true)
    ∧ ∀ (calls : List (Nat × Except IOError (List SocketAddr))),
        (∀ c ∈ calls, c.1 - now < 3) →
        resolveSeq { a with resolved_time := some now, ttl := some 3 } mode2 calls
          = (calls.map (fun _ => Except.ok a.resolved_addresses),
             { a with resolved_time := some now, ttl := some 3 }, 0) := by
  constructor
  · simp [resolve, hexp]
  · intro calls hc
    exact resolveSeq_hits { a with resolved_time := some now, ttl := some 3 }
      mode2 calls hne (fun c hcc => by simp [is_valid]; exact hc c hcc)

open UpstreamAddress in
/-- Claim C10, witness: a cache holding one address resolved at t = 0 with ttl
60 s; at t = 60 the lookup fails and the error is returned, and calls at
t = 61 and t = 62 both get the old singleton list back with no lookup. -/
theorem C10_stale_list_served_after_failure_witness :
    ({ address := "h:80", resolved_addresses := [SocketAddr.v4 1 80],
       resolved_time := some 0, ttl := some 60 } : UpstreamAddress).resolve
        ResolutionMode.Ipv4AndIpv6 60 (Except.error ⟨"dns fail"⟩)
      = (Except.error ⟨"dns fail"⟩,
         { address := "h:80", resolved_addresses := [SocketAddr.v4 1 80],
           resolved_time := some 60, ttl := some 3 }, true)
    ∧ resolveSeq
        { address := "h:80", resolved_addresses := [SocketAddr.v4 1 80],
          resolved_time := some 60, ttl := some 3 }
        ResolutionMode.Ipv4AndIpv6
        [(61, Except.error ⟨"dns fail"⟩), (62, Except.error ⟨"dns fail"⟩)]
      = ([Except.ok [SocketAddr.v4 1 80], Except.ok [SocketAddr.v4 1 80]],
         { address := "h:80", resolved_addresses := [SocketAddr.v4 1 80],
           resolved_time := some 60, ttl := some 3 }, 0) := by
  have h := C10_stale_list_served_after_failure
    { address := "h:80", resolved_addresses := [SocketAddr.v4 1 80],
      resolved_time := some 0, ttl := some 60 }
    ResolutionMode.Ipv4AndIpv6 ResolutionMode.Ipv4AndIpv6 60 ⟨"dns fail"⟩
    (by decide) (by decide)
  exact ⟨h.1, h.2 [(61, Except.error ⟨"dns fail"⟩), (62, Except.error ⟨"dns fail"⟩)]
    (by decide)⟩

theorem checkDupNames_ok (l : List (String × Upstream)) (seen : List String)
    (h : (seen ++ l.map Prod.fst).Nodup) :
    checkDupNames l seen = Except.ok (seen ++ l.map Prod.fst) := by
  induction l generalizing seen with
  | nil => simp [checkDupNames]
  | cons q rest ih =>
      obtain ⟨name, u⟩ := q
      rw [List.map_cons] at h
      have hdisj := (List.nodup_append.1 h).2.2
      have hnot : name ∉ seen := fun hmem => hdisj hmem (by simp)
      have h2 : ((seen ++ [name]) ++ rest.map Prod.fst).Nodup := by
        rw [List.append_assoc]
        simpa using h
      have h3 := ih (seen ++ [name]) h2
      simp [checkDupNames, hnot, h3, List.append_assoc]

theorem checkListens_dup_head (x : String) (xs : List String) :
    checkListens (x :: x :: xs) []
      = Except.error (ConfigError.Custom ("Duplicate listen address " ++ x)) := by
  simp [checkListens]

theorem mem_insertUsed (used : List String) (v u : String) :
    u ∈ insertUsed used v ↔ u ∈ used ∨ u = v := by
  unfold insertUsed
  by_cases h : v ∈ used
  · rw [if_pos h]
    constructor
    · exact Or.inl
    · rintro (h1 | rfl)
      · exact h1
      · exact h
  · rw [if_neg h]
    simp

theorem mem_foldl_insertUsed (l init : List String) (u : String) :
    u ∈ l.foldl insertUsed init ↔ u ∈ init ∨ u ∈ l := by
  induction l generalizing init with
  | nil => simp
  | cons x rest ih =>
      rw [List.foldl_cons, ih, mem_insertUsed]
      simp [or_assoc]

theorem mem_collectRefs (used : List String) (server : ServerConfig) (u : String) :
    u ∈ collectRefs used server ↔ u ∈ used ∨ u ∈ serverRefs server := by
  simp [collectRefs, mem_foldl_insertUsed]

theorem mem_foldl_collectRefs (servers : List (String × ServerConfig))
    (init : List String) (u : String) :
    u ∈ servers.foldl (fun used s => collectRefs used s.2) init
      ↔ u ∈ init ∨ ∃ p ∈ servers, u ∈ serverRefs p.2 := by
  induction servers generalizing init with
  | nil => simp
  | cons s rest ih =>
      rw [List.foldl_cons, ih, mem_collectRefs]
      simp [or_assoc]

theorem verifyServers_ok_used (upstreamKeys : List String)
    (servers : List (String × ServerConfig)) (listens used out : List String)
    (h : verifyServers upstreamKeys servers listens used = Except.ok out) :
    out = servers.foldl (fun u s => collectRefs u s.2) used := by
  induction servers generalizing listens used with
  | nil =>
      unfold verifyServers at h
      injection h with h
      simp [h]
  | cons q rest ih =>
      obtain ⟨n, server⟩ := q
      rw [List.foldl_cons]
      unfold verifyServers at h
      split at h
      · exact absurd h (by simp)
      · split at h
        · exact absurd h (by simp)
        · exact ih _ _ h

/-- Claim C5, counterexample: a configuration with both a cross-server
duplicated listen address (the second occurrence in server "b") and a dangling
upstream reference (in server "a", iterated first) fails with "Upstream
missing not found", NOT with the duplicate-listen-address error: the checks
are interleaved per server, not staged globally. -/
theorem C5_counterexample_reference_error_wins :
    verifyConfig
      { version := 1, log := none,
        servers :=
          [("a", { listen := ["127.0.0.1:443"], protocol := none, tls := none,
                   sni := none, default := some "missing" }),
           ("b", { listen := ["127.0.0.1:443"], protocol := none, tls := none,
                   sni := none, default := none })],
        upstream := [("ban", Upstream.Ban), ("echo", Upstream.Echo)] }
      = Except.error (ConfigError.Custom "Upstream missing not found")
    ∧ verifyConfig
      { version := 1, log := none,
        servers :=
          [("a", { listen := ["127.0.0.1:443"], protocol := none, tls := none,
                   sni := none, default := some "missing" }),
           ("b", { listen := ["127.0.0.1:443"], protocol := none, tls := none,
                   sni := none, default := none })],
        upstream := [("ban", Upstream.Ban), ("echo", Upstream.Echo)] }
      ≠ Except.error (ConfigError.Custom "Duplicate listen address 127.0.0.1:443") := by
  constructor
  · rfl
  · intro hcontra
    have h0 : (Except.error (ConfigError.Custom "Upstream missing not found") :
        Except ConfigError ParsedConfig)
        = Except.error (ConfigError.Custom "Duplicate listen address 127.0.0.1:443") := by
      rw [← hcontra]
      rfl
    injection h0 with h1
    exact absurd h1 (by decide)

theorem checkListens_ok_nodup (l : List String) (seen out : List String)
    (hseen : seen.Nodup) (h : checkListens l seen = Except.ok out) :
    (seen ++ l).Nodup := by
  induction l generalizing seen with
  | nil => simpa using hseen
  | cons x rest ih =>
      unfold checkListens at h
      split at h
      · exact absurd h (by simp)
      · rename_i hx
        have hseen2 : (seen ++ [x]).Nodup := by
          rw [List.nodup_append]
          refine ⟨hseen, List.nodup_singleton x, ?_⟩
          intro a ha hb
          simp at hb
          subst hb
          exact hx ha
        have h3 := ih (seen ++ [x]) hseen2 h
        rw [List.append_assoc] at h3
        simpa using h3

theorem checkListens_error_form (l : List String) (seen : List String)
    (e : ConfigError) (h : checkListens l seen = Except.error e) :
    ∃ x ∈ l, e = ConfigError.Custom ("Duplicate listen address " ++ x) := by
  induction l generalizing seen with
  | nil => simp [checkListens] at h
  | cons x rest ih =>
      unfold checkListens at h
      split at h
      · injection h with h
        exact ⟨x, by simp, h.symm⟩
      · obtain ⟨y, hy, he⟩ := ih (seen ++ [x]) h
        exact ⟨y, by simp [hy], he⟩

/-- Claim C5, amended: the listen-address check does come before the
upstream-reference check, but only within each server iteration, not globally
across all servers. In particular, whenever the first-iterated server's listen
list contains any repeated address, validation fails with the
duplicate-listen-address error (for one of that server's listen addresses) no
matter what dangling references that server or any later server holds; a
dangling reference in an earlier-iterated server, however, is reported before
a duplicate whose second occurrence lies in a later server. -/
theorem C5_amended_dup_listen_in_first_server (cfg : ParsedConfig) (n : String)
    (s : ServerConfig) (rest : List (String × ServerConfig))
    (hnodup : (cfg.upstream.map Prod.fst).Nodup)
    (hdup : ¬ s.listen.Nodup)
    (hsrv : cfg.servers = (n, s) :: rest) :
    ∃ x ∈ s.listen,
      verifyConfig cfg
        = Except.error (ConfigError.Custom ("Duplicate listen address " ++ x)) := by
  have hnames := checkDupNames_ok cfg.upstream [] (by simpa using hnodup)
  cases hcl : checkListens s.listen [] with
  | ok out =>
      have h3 := checkListens_ok_nodup s.listen [] out List.nodup_nil hcl
      exact absurd (by simpa using h3) hdup
  | error e =>
      obtain ⟨x, hx, he⟩ := checkListens_error_form s.listen [] e hcl
      refine ⟨x, hx, ?_⟩
      subst he
      simp only [verifyConfig, hnames, hsrv, verifyServers, hcl]

/-- Claim C5 amended, witness: a server whose listen list repeats its third
entry (not the first two) and which references a missing upstream fails with
the duplicate-listen error for that repeated address, not with the
dangling-reference error. -/
theorem C5_amended_dup_listen_in_first_server_witness :
    verifyConfig
      { version := 1, log := none,
        servers :=
          [("a", { listen := ["0.0.0.0:80", "0.0.0.0:443", "0.0.0.0:443"],
                   protocol := none, tls := none, sni := none,
                   default := some "missing" })],
        upstream := [("ban", Upstream.Ban), ("echo", Upstream.Echo)] }
      = Except.error (ConfigError.Custom ("Duplicate listen address " ++ "0.0.0.0:443")) := by
  obtain ⟨x, hx, he⟩ := C5_amended_dup_listen_in_first_server
    { version := 1, log := none,
      servers :=
        [("a", { listen := ["0.0.0.0:80", "0.0.0.0:443", "0.0.0.0:443"],
                 protocol := none, tls := none, sni := none,
                 default := some "missing" })],
      upstream := [("ban", Upstream.Ban), ("echo", Upstream.Echo)] }
    "a"
    { listen := ["0.0.0.0:80", "0.0.0.0:443", "0.0.0.0:443"],
      protocol := none, tls := none, sni := none, default := some "missing" }
    [] (by decide) (by decide) rfl
  simp at hx
  rcases hx with rfl | rfl
  · have hev : verifyConfig
        { version := 1, log := none,
          servers :=
            [("a", { listen := ["0.0.0.0:80", "0.0.0.0:443", "0.0.0.0:443"],
                     protocol := none, tls := none, sni := none,
                     default := some "missing" })],
          upstream := [("ban", Upstream.Ban), ("echo", Upstream.Echo)] }
        = Except.error (ConfigError.Custom "Duplicate listen address 0.0.0.0:443") := rfl
    rw [hev] at he
    injection he with h1
  · exact he

/-- Claim C6: the used-upstream set accumulates across server iterations
without being reset. First conjunct: whenever the server loop succeeds, the
set it returns is the fold of `collectRefs` over ALL servers starting from the
initial set — one single threaded accumulator. Second conjunct: membership in
that accumulated set is exactly "some server references the name (via an SNI
map value under TLS, or as its default)" — so a name referenced by an earlier
server is in the set handed to every later server's check. Third conjunct:
the final unused-upstream pass compares each upstream name against this single
global set, exempting only the two builtins. -/
theorem C6_used_set_accumulates_globally :
    (∀ (upstreamKeys listens used out : List String)
        (servers : List (String × ServerConfig)),
        verifyServers upstreamKeys servers listens used = Except.ok out →
        out = servers.foldl (fun u s => collectRefs u s.2) used)
    ∧ (∀ (servers : List (String × ServerConfig)) (init : List String) (u : String),
        u ∈ servers.foldl (fun us s => collectRefs us s.2) init
          ↔ u ∈ init ∨ ∃ p ∈ servers, u ∈ serverRefs p.2)
    ∧ (∀ (cfg : ParsedConfig) (u : String),
        u ∈ unusedUpstreams cfg
          ↔ u ∈ cfg.upstream.map Prod.fst ∧ ¬u ∈ globalUsedSet cfg.servers
            ∧ u ≠ "echo" ∧ u ≠ "ban") := by
  refine ⟨?_, ?_, ?_⟩
  · intro upstreamKeys listens used out servers h
    exact verifyServers_ok_used upstreamKeys servers listens used out h
  · intro servers init u
    exact mem_foldl_collectRefs servers init u
  · intro cfg u
    simp [unusedUpstreams, List.mem_filter, and_assoc]

/-- Claim C6, witness: with server "a" referencing "up1" as default and server
"b" referencing nothing, the server loop returns the accumulated set
`["up1"]`, which equals the global fold over both servers. -/
theorem C6_used_set_accumulates_globally_witness :
    (["up1"] : List String)
      = [(("a" : String), ({ listen := ["l1"], protocol := none, tls := none,
                             sni := none, default := some "up1" } : ServerConfig)),
         ("b", { listen := ["l2"], protocol := none, tls := none,
                 sni := none, default := none })].foldl
          (fun u s => collectRefs u s.2) [] :=
  C6_used_set_accumulates_globally.1 ["up1"] [] [] ["up1"]
    [(("a" : String), ({ listen := ["l1"], protocol := none, tls := none,
                         sni := none, default := some "up1" } : ServerConfig)),
     ("b", { listen := ["l2"], protocol := none, tls := none,
             sni := none, default := none })] rfl

theorem verifyConfig_ok_eq (c c2 : ParsedConfig)
    (h : verifyConfig c = Except.ok c2) : c2 = c := by
  unfold verifyConfig at h
  split at h
  · exact absurd h (by simp)
  · split at h
    · exact absurd h (by simp)
    · injection h with h
      exact h.symm

theorem mem_hmInsert {α : Type} (m : List (String × α)) (k a : String) (v b : α)
    (h : (a, b) ∈ hmInsert m k v) : (a, b) = (k, v) ∨ (a, b) ∈ m := by
  unfold hmInsert at h
  split at h
  · obtain ⟨p, hp, hpe⟩ := List.mem_map.1 h
    split at hpe
    · exact Or.inl hpe.symm
    · right
      rwa [hpe] at hp
  · rcases List.mem_append.1 h with h1 | h1
    · exact Or.inr h1
    · left
      simpa using h1

theorem parseUpstreams_protocol (parseUrl : String → Option Url)
    (l : List (String × String)) (acc out : List (String × Upstream))
    (hacc : ∀ (n : String) (p : ProxyToUpstream), (n, Upstream.Proxy p) ∈ acc →
        p.protocol = "tcp" ∨ p.protocol = "tcp4" ∨ p.protocol = "tcp6")
    (h : parseUpstreams parseUrl acc l = Except.ok out) :
    ∀ (n : String) (p : ProxyToUpstream), (n, Upstream.Proxy p) ∈ out →
        p.protocol = "tcp" ∨ p.protocol = "tcp4" ∨ p.protocol = "tcp6" := by
  induction l generalizing acc with
  | nil =>
      unfold parseUpstreams at h
      injection h with h
      subst h
      exact hacc
  | cons q rest ih =>
      obtain ⟨name, raw⟩ := q
      cases hpu : parseUrl raw with
      | none => simp [parseUpstreams, hpu] at h
      | some u =>
          cases hhost : u.host_str with
          | none => simp [parseUpstreams, hpu, hhost] at h
          | some host =>
              cases hport : u.port_or_known_default with
              | none => simp [parseUpstreams, hpu, hhost, hport] at h
              | some port =>
                  by_cases hscheme : u.scheme = "tcp" ∨ u.scheme = "tcp4"
                      ∨ u.scheme = "tcp6"
                  · simp only [parseUpstreams, hpu, hhost, hport,
                      if_pos hscheme] at h
                    refine ih _ ?_ h
                    intro n p hmem
                    rcases mem_hmInsert _ _ _ _ _ hmem with heq | hold
                    · injection heq with hn hup
                      injection hup with hp2
                      rw [hp2]
                      exact hscheme
                    · exact hacc n p hold
                  · simp [parseUpstreams, hpu, hhost, hport, hscheme] at h

theorem fromStr_tcp :
    ResolutionMode.fromStr "tcp" = some ResolutionMode.Ipv4AndIpv6 := rfl

theorem fromStr_tcp4 :
    ResolutionMode.fromStr "tcp4" = some ResolutionMode.Ipv4 := rfl

theorem fromStr_tcp6 :
    ResolutionMode.fromStr "tcp6" = some ResolutionMode.Ipv6 := rfl

theorem fromStr_none_of_unknown (s : String)
    (h1 : s ≠ "tcp") (h2 : s ≠ "tcp4") (h3 : s ≠ "tcp6") :
    ResolutionMode.fromStr s = none := by
  unfold ResolutionMode.fromStr
  split <;> simp_all

/-- Claim C7: for an upstream whose raw URL parses, the loader checks host,
then port, then scheme, in that order. First conjunct: a parsed URL with no
host fails with "Invalid upstream url". Second: host present but no effective
port also fails with "Invalid upstream url". Third: host and port present but
a scheme outside tcp/tcp4/tcp6 fails with "Invalid upstream scheme". -/
theorem C7_upstream_url_validation (parseUrl : String → Option Url)
    (base : BaseConfig) (name raw : String) (u : Url)
    (rest : List (String × String))
    (hv : base.version = 1)
    (hup : base.upstream = (name, raw) :: rest)
    (hpu : parseUrl raw = some u) :
    (u.host_str = none →
      loadParsedConfig parseUrl base
        = Except.error (ConfigError.Custom ("Invalid upstream url " ++ raw)))
    ∧ (∀ host : String, u.host_str = some host →
        u.port_or_known_default = none →
        loadParsedConfig parseUrl base
          = Except.error (ConfigError.Custom ("Invalid upstream url " ++ raw)))
    ∧ (∀ (host : String) (port : Nat), u.host_str = some host →
        u.port_or_known_default = some port →
        u.scheme ≠ "tcp" → u.scheme ≠ "tcp4" → u.scheme ≠ "tcp6" →
        loadParsedConfig parseUrl base
          = Except.error (ConfigError.Custom ("Invalid upstream scheme " ++ raw))) := by
  refine ⟨?_, ?_, ?_⟩
  · intro hhost
    simp [loadParsedConfig, hv, hup, parseUpstreams, hpu, hhost]
  · intro host hhost hport
    simp [loadParsedConfig, hv, hup, parseUpstreams, hpu, hhost, hport]
  · intro host port hhost hport h1 h2 h3
    simp [loadParsedConfig, hv, hup, parseUpstreams, hpu, hhost, hport, h1, h2, h3]

/-- Claim C7, witness: the scheme check at `http://host:1234` (host and port
present), the host check at a host-less URL, and the port check at a portless
URL, each through the loader. -/
theorem C7_upstream_url_validation_witness :
    loadParsedConfig
        (fun _ => some { scheme := "http", host_str := some "host",
                         port_or_known_default := some 1234 })
        { version := 1, log := none, servers := [],
          upstream := [("up1", "http://host:1234")] }
      = Except.error (ConfigError.Custom ("Invalid upstream scheme " ++ "http://host:1234"))
    ∧ loadParsedConfig
        (fun _ => some { scheme := "tcp", host_str := none,
                         port_or_known_default := none })
        { version := 1, log := none, servers := [],
          upstream := [("up1", "tcp://")] }
      = Except.error (ConfigError.Custom ("Invalid upstream url " ++ "tcp://"))
    ∧ loadParsedConfig
        (fun _ => some { scheme := "tcp", host_str := some "host",
                         port_or_known_default := none })
        { version := 1, log := none, servers := [],
          upstream := [("up1", "tcp://host")] }
      = Except.error (ConfigError.Custom ("Invalid upstream url " ++ "tcp://host")) :=
  ⟨(C7_upstream_url_validation
      (fun _ => some { scheme := "http", host_str := some "host",
                       port_or_known_default := some 1234 })
      { version := 1, log := none, servers := [],
        upstream := [("up1", "http://host:1234")] }
      "up1" "http://host:1234"
      { scheme := "http", host_str := some "host",
        port_or_known_default := some 1234 }
      [] rfl rfl rfl).2.2 "host" 1234 rfl rfl
      (by decide) (by decide) (by decide),
   (C7_upstream_url_validation
      (fun _ => some { scheme := "tcp", host_str := none,
                       port_or_known_default := none })
      { version := 1, log := none, servers := [],
        upstream := [("up1", "tcp://")] }
      "up1" "tcp://"
      { scheme := "tcp", host_str := none, port_or_known_default := none }
      [] rfl rfl rfl).1 rfl,
   (C7_upstream_url_validation
      (fun _ => some { scheme := "tcp", host_str := some "host",
                       port_or_known_default := none })
      { version := 1, log := none, servers := [],
        upstream := [("up1", "tcp://host")] }
      "up1" "tcp://host"
      { scheme := "tcp", host_str := some "host", port_or_known_default := none }
      [] rfl rfl rfl).2.1 "host" rfl rfl⟩

/-- Claim C8: any parsed document whose version differs from 1 makes loading
fail with the "Unsupported config version" error, whatever its servers and
upstreams are. -/
theorem C8_version_gate (parseUrl : String → Option Url) (base : BaseConfig)
    (h : base.version ≠ 1) :
    loadParsedConfig parseUrl base
      = Except.error (ConfigError.Custom "Unsupported config version") := by
  simp [loadParsedConfig, h]

/-- Claim C8, witness: a version-2 document with nonempty contents is rejected. -/
theorem C8_version_gate_witness :
    loadParsedConfig (fun _ => none)
        { version := 2, log := some "info",
          servers := [("a", { listen := ["l"], protocol := none, tls := none,
                              sni := none, default := none })],
          upstream := [("u", "tcp://h:80")] }
      = Except.error (ConfigError.Custom "Unsupported config version") :=
  C8_version_gate (fun _ => none)
    { version := 2, log := some "info",
      servers := [("a", { listen := ["l"], protocol := none, tls := none,
                          sni := none, default := none })],
      upstream := [("u", "tcp://h:80")] }
    (by decide)

/-- Claim C9: the protocol-to-mode conversion maps "tcp" to dual-stack, "tcp4"
to IPv4-only, "tcp6" to IPv6-only, and hits the fatal assertion (modelled as
`none`) on every other string; and every `ProxyToUpstream` in the upstream
table of a successfully loaded configuration carries one of those three
protocol strings, so converting its protocol never panics and
`resolve_addresses` on it never reaches the panic branch. -/
theorem C9_mode_mapping_and_no_panic_after_load :
    ResolutionMode.fromStr "tcp" = some ResolutionMode.Ipv4AndIpv6
    ∧ ResolutionMode.fromStr "tcp4" = some ResolutionMode.Ipv4
    ∧ ResolutionMode.fromStr "tcp6" = some ResolutionMode.Ipv6
    ∧ (∀ s : String, s ≠ "tcp" → s ≠ "tcp4" → s ≠ "tcp6" →
        ResolutionMode.fromStr s = none)
    ∧ (∀ (parseUrl : String → Option Url) (base : BaseConfig)
        (cfg : ParsedConfig) (n : String) (p : ProxyToUpstream),
        loadParsedConfig parseUrl base = Except.ok cfg →
        (n, Upstream.Proxy p) ∈ cfg.upstream →
        (p.protocol = "tcp" ∨ p.protocol = "tcp4" ∨ p.protocol = "tcp6")
          ∧ (ResolutionMode.fromStr p.protocol).isSome = true
          ∧ ∀ (now : Nat) (lr : Except IOError (List SocketAddr)),
              (p.resolve_addresses now lr).isSome = true) := by
  refine ⟨rfl, rfl, rfl, fromStr_none_of_unknown, ?_⟩
  intro parseUrl base cfg n p hload hmem
  unfold loadParsedConfig at hload
  split at hload
  · exact absurd hload (by simp)
  · split at hload
    · exact absurd hload (by simp)
    · rename_i up hup
      have hcfg := verifyConfig_ok_eq _ _ hload
      subst hcfg
      have hmem2 : (n, Upstream.Proxy p)
          ∈ hmInsert (hmInsert up "ban" Upstream.Ban) "echo" Upstream.Echo := hmem
      have htriple : p.protocol = "tcp" ∨ p.protocol = "tcp4"
          ∨ p.protocol = "tcp6" := by
        rcases mem_hmInsert _ _ _ _ _ hmem2 with heq | hmem3
        · exact absurd heq (by simp)
        · rcases mem_hmInsert _ _ _ _ _ hmem3 with heq | hmem4
          · exact absurd heq (by simp)
          · exact parseUpstreams_protocol parseUrl base.upstream [] up
              (by simp) hup n p hmem4
      have hsome : (ResolutionMode.fromStr p.protocol).isSome = true := by
        rcases htriple with h | h | h <;>
          simp [h, fromStr_tcp, fromStr_tcp4, fromStr_tcp6]
      refine ⟨htriple, hsome, ?_⟩
      intro now lr
      unfold ProxyToUpstream.resolve_addresses
      cases hfs : ResolutionMode.fromStr p.protocol with
      | none => rw [hfs] at hsome; exact absurd hsome (by simp)
      | some mode => simp [hfs]

/-- Claim C9, witness: loading a single `tcp://h:80` upstream succeeds, the
resulting proxy upstream has protocol "tcp", its mode conversion is `some`,
and a resolve through it does not panic; and an unknown protocol string maps
to the fatal-assertion branch. -/
theorem C9_mode_mapping_and_no_panic_after_load_witness :
    (({ name := "u", addr := "h:80", protocol := "tcp",
        addresses := UpstreamAddress.new "h:80" } : ProxyToUpstream).protocol = "tcp"
      ∨ ({ name := "u", addr := "h:80", protocol := "tcp",
           addresses := UpstreamAddress.new "h:80" } : ProxyToUpstream).protocol = "tcp4"
      ∨ ({ name := "u", addr := "h:80", protocol := "tcp",
           addresses := UpstreamAddress.new "h:80" } : ProxyToUpstream).protocol = "tcp6")
    ∧ (ResolutionMode.fromStr
        ({ name := "u", addr := "h:80", protocol := "tcp",
           addresses := UpstreamAddress.new "h:80" } : ProxyToUpstream).protocol).isSome = true
    ∧ ∀ (now : Nat) (lr : Except IOError (List SocketAddr)),
        (({ name := "u", addr := "h:80", protocol := "tcp",
            addresses := UpstreamAddress.new "h:80" } : ProxyToUpstream).resolve_addresses
          now lr).isSome = true :=
  C9_mode_mapping_and_no_panic_after_load.2.2.2.2
    (fun _ => some { scheme := "tcp", host_str := some "h",
                     port_or_known_default := some 80 })
    { version := 1, log := none, servers := [],
      upstream := [("u", "tcp://h:80")] }
    { version := 1, log := none, servers := [],
      upstream := [("u", Upstream.Proxy
        { name := "u", addr := "h:80", protocol := "tcp",
          addresses := UpstreamAddress.new "h:80" }),
       ("ban", Upstream.Ban), ("echo", Upstream.Echo)] }
    "u"
    { name := "u", addr := "h:80", protocol := "tcp",
      addresses := UpstreamAddress.new "h:80" }
    rfl (by simp)
